import Mathlib

/-!
template_study: compile-time dispatch and variadic folds

A shallow embedding of the demonstration programs of the repository:

* `src/template/test.cpp`                     : `add`, `add_fold`, `sub`, `sub_fold`
* `src/Variadic_templates/test_sub.cpp`       : `rightFold`, `leftFold`
* `src/Variadic_templates/fold_examples.cpp`  : `rightFold`, `leftFold`
* `src/SFINAE/SFINAE.cpp`                     : `print`, `myPrint`, `conceptPrint`
* `src/SFINAE/test2.cpp`                      : `has_non_void_value_type`, `TypePrinter`
* `src/forward/test.cpp`                      : `process`, `wrapper`
* `src/Specialization/Specialization.cpp`     : `Mypair`

A parameter pack of one element type is a `List`; a function template whose
instantiation is ill-formed for some pack (a failed `static_assert`, a unary
fold over an empty pack, an ambiguous or empty overload set) returns `none`.
-/

/-! ## Unary fold expressions of the language -/

/-- Unary left fold `(... op args)`: `((a1 op a2) op a3) op ...`; ill-formed on an
empty pack for the arithmetic operators. -/
def unaryLeftFold {α : Type} (op : α → α → α) : List α → Option α
  | [] => none
  | a :: rest => some (rest.foldl op a)

/-- Unary right fold `(args op ...)`: `a1 op (a2 op (... op an))`; ill-formed on an
empty pack for the arithmetic operators. -/
def unaryRightFold {α : Type} (op : α → α → α) : List α → Option α
  | [] => none
  | [a] => some a
  | a :: b :: rest => (unaryRightFold op (b :: rest)).map (fun r => op a r)

/-! ## Fixed-width integer types and their addition -/

/-- An integer type of the language: its signedness and its width in bits. For an
operand type narrower than `int` this is the type the operands are promoted to,
in which `+` is evaluated. -/
structure IntType where
  signed : Bool
  bits : Nat
  deriving DecidableEq, Repr

/-- The type `int` (32 bits). -/
def int32 : IntType := { signed := true, bits := 32 }

/-- The type `unsigned int` (32 bits). -/
def uint32 : IntType := { signed := false, bits := 32 }

/-- Smallest value of the type. -/
def IntType.minVal (t : IntType) : Int :=
  if t.signed then -(2 ^ (t.bits - 1)) else 0

/-- Largest value of the type. -/
def IntType.maxVal (t : IntType) : Int :=
  if t.signed then 2 ^ (t.bits - 1) - 1 else 2 ^ t.bits - 1

/-- The value is representable in the type. -/
def IntType.inRange (t : IntType) (v : Int) : Bool :=
  decide (t.minVal ≤ v ∧ v ≤ t.maxVal)

/-- Built-in `a + b` on two values of the type: unsigned addition wraps modulo
`2 ^ bits`; signed addition that leaves the range is undefined (and makes a
constant expression ill-formed), which is `none`. -/
def IntType.plus (t : IntType) (a b : Int) : Option Int :=
  if t.signed then
    (if t.inRange (a + b) then some (a + b) else none)
  else
    some ((a + b) % 2 ^ t.bits)

/-- The result of evaluating an expression of integer type `t`: a value, or
`none` when the evaluation has run into signed overflow. -/
structure Value (t : IntType) where
  val : Option Int
  deriving DecidableEq, Repr

/-- An argument of type `t` with value `v`. -/
def Value.of (t : IntType) (v : Int) : Value t := { val := some v }

/-- The operator `+` on results: both operands are evaluated, then added in the
type. -/
instance (t : IntType) : Add (Value t) where
  add x y := { val := x.val.bind (fun a => y.val.bind (fun b => t.plus a b)) }

/-- What the sum `s` of a pack is in the type: `s` itself in a signed type, `s`
modulo `2 ^ bits` in an unsigned type. -/
def IntType.ofSum (t : IntType) (s : Int) : Int :=
  if t.signed then s else s % 2 ^ t.bits

/-! ## src/template/test.cpp -/

namespace TemplateTest

/-- Function template `add(T first, Args... args)`: `first` when the pack is empty, otherwise
`first + add(args...)`. The `static_assert`s (one type, addable) are carried by
the homogeneous list and the `Add` instance; for a fixed-width integer type `t`
the template is instantiated at `Value t`, whose `+` is the addition of `t`. -/
def add {α : Type} [Add α] (first : α) : List α → α
  | [] => first
  | a :: rest => first + add a rest

/-- Function template `add_fold(Args... args)`: `static_assert(sizeof...(args) > 0)` and then the
left fold `(... + args)`. -/
def add_fold {α : Type} [Add α] (args : List α) : Option α :=
  if args.length > 0 then unaryLeftFold (· + ·) args else none

/-- Function template `sub(T first, Args... args)`: `first` when the pack is empty, otherwise
`first - sub(args...)`. -/
def sub {α : Type} [Sub α] (first : α) : List α → α
  | [] => first
  | a :: rest => first - sub a rest

/-- Function template `sub_fold(Args... args)`: `static_assert(sizeof...(args) > 0)` and then the
left fold `(... - args)`. -/
def sub_fold {α : Type} [Sub α] (args : List α) : Option α :=
  if args.length > 0 then unaryLeftFold (· - ·) args else none

end TemplateTest

/-! ## src/Variadic_templates/test_sub.cpp -/

namespace TestSub

/-- Function template `rightFold(Args... args)` of test_sub.cpp: `return (args - ...);`. -/
def rightFold {α : Type} [Sub α] (args : List α) : Option α :=
  unaryRightFold (· - ·) args

/-- Function template `leftFold(Args... args)` of test_sub.cpp: `return (... - args);`. -/
def leftFold {α : Type} [Sub α] (args : List α) : Option α :=
  unaryLeftFold (· - ·) args

end TestSub

/-! ## src/Variadic_templates/fold_examples.cpp -/

namespace FoldExamples

/-- Function template `rightFold(Args... args)` of fold_examples.cpp: `return (... - args);`
(the source comment reads `a - (b - (c - d))`). -/
def rightFold {α : Type} [Sub α] (args : List α) : Option α :=
  unaryLeftFold (· - ·) args

/-- Function template `leftFold(Args... args)` of fold_examples.cpp: `return (args - ...);`
(the source comment reads `((a - b) - c) - d`). -/
def leftFold {α : Type} [Sub α] (args : List α) : Option α :=
  unaryRightFold (· - ·) args

end FoldExamples

/-! ## The types of the language that the dispatch programs range over, and the
standard-library type traits the programs use (after the language standard) -/

/-- The fundamental types. -/
inductive Fundamental
  | void | nullptr_t
  | bool | char | signed_char | unsigned_char | wchar_t | char8_t | char16_t | char32_t
  | short | unsigned_short | int | unsigned_int | long | unsigned_long
  | long_long | unsigned_long_long
  | float | double | long_double
  deriving DecidableEq, Repr

/-- Types: fundamental types, class types (by name, such as `std::string` or
`std::vector<int>`), pointers, cv-qualified types and references. -/
inductive CppType
  | fund (f : Fundamental)
  | cls (name : String)
  | ptr (pointee : CppType)
  | const (t : CppType)
  | volatile (t : CppType)
  | lref (t : CppType)
  | rref (t : CppType)
  deriving DecidableEq, Repr

namespace CppType

def int : CppType := fund Fundamental.int
def double : CppType := fund Fundamental.double
def void : CppType := fund Fundamental.void
/-- The type `const char *`. -/
def constCharPtr : CppType := ptr (const (fund Fundamental.char))
/-- The type `char *`. -/
def charPtr : CppType := ptr (fund Fundamental.char)
/-- The type `std::string`. -/
def stdString : CppType := cls "std::string"
/-- The type `std::vector<int>`. -/
def vectorInt : CppType := cls "std::vector<int>"

end CppType

/-- The type has the form `V*` (a pointer without top-level cv-qualifier). -/
def CppType.isPointer : CppType → Bool
  | CppType.ptr _ => true
  | _ => false

/-- Trait `std::remove_cv_t<T>`: strips the top-level cv-qualifiers. -/
def remove_cv : CppType → CppType
  | CppType.const t => remove_cv t
  | CppType.volatile t => remove_cv t
  | t => t

/-- The integral fundamental types (`bool`, the character types and the signed
and unsigned integer types). -/
def Fundamental.isIntegral : Fundamental → Bool
  | void | nullptr_t | float | double | long_double => false
  | _ => true

/-- The floating-point fundamental types. -/
def Fundamental.isFloatingPoint : Fundamental → Bool
  | float | double | long_double => true
  | _ => false

/-- Trait `std::is_integral_v<T>`: true for the integral types and their cv-qualified
versions. -/
def is_integral_v (T : CppType) : Bool :=
  match remove_cv T with
  | CppType.fund f => f.isIntegral
  | _ => false

/-- Trait `std::is_floating_point_v<T>`: true for `float`, `double`, `long double` and
their cv-qualified versions. -/
def is_floating_point_v (T : CppType) : Bool :=
  match remove_cv T with
  | CppType.fund f => f.isFloatingPoint
  | _ => false

/-- Trait `std::is_void_v<T>`: true for `void` and its cv-qualified versions. -/
def is_void_v (T : CppType) : Bool :=
  match remove_cv T with
  | CppType.fund Fundamental.void => true
  | _ => false

/-- Trait `std::is_same_v<T, U>`. -/
def is_same_v (T U : CppType) : Bool := decide (T = U)

/-- Trait `std::enable_if_t<B, R>`: the type `R` when `B` holds, a substitution
failure otherwise. -/
def enable_if_t (B : Bool) (R : CppType) : Option CppType :=
  if B then some R else none

/-- Trait `std::void_t<Ts...>` for one argument: `void` when the argument is a valid
type, a substitution failure when it is not. -/
def void_t (arg : Option CppType) : Option CppType :=
  arg.map (fun _ => CppType.void)

/-- A function argument as the dispatch programs see it: its type, the text that
`std::cout << t` writes for it, and, for a range, the text of its items. -/
structure Arg where
  type : CppType
  shown : String
  items : List String := []

/-- Output text. -/
abbrev Text := String

/-- Text of `for (auto &item : t) std::cout << item << " ";`. -/
def joinItems (items : List String) : Text :=
  String.join (items.map (fun i => i ++ " "))

/-- Overload resolution over candidates none of which is a better match than
another: the call is well-formed exactly when one viable candidate is left
(no viable candidate or several of them make the call ill-formed). -/
def resolve {O : Type} (candidates : List O) (viable : O → Bool) : Option O :=
  match candidates.filter viable with
  | [o] => some o
  | _ => none

/-! ## src/SFINAE/SFINAE.cpp -/

namespace SFINAE

/-- The two `print` overloads, in source order. -/
inductive PrintOverload
  | integral | floatingPoint
  deriving DecidableEq, Repr

/-- The return type of each `print` overload after substitution of `T`:
`std::enable_if<std::is_integral<T>::value, void>::type` and
`std::enable_if<std::is_floating_point<T>::value, void>::type`. -/
def PrintOverload.returnType (T : CppType) : PrintOverload → Option CppType
  | integral => enable_if_t (is_integral_v T) CppType.void
  | floatingPoint => enable_if_t (is_floating_point_v T) CppType.void

/-- The line each `print` body writes (before `std::endl`). -/
def PrintOverload.line : PrintOverload → String
  | integral => "T is intergal!"
  | floatingPoint => "T is floating point!"

/-- Overload selected by the call `print(t)` with `T` deduced as `T`. -/
def printSelect (T : CppType) : Option PrintOverload :=
  resolve [PrintOverload.integral, PrintOverload.floatingPoint]
    (fun o => (o.returnType T).isSome)

/-- Text written by `print(t)`; `none` when the call is ill-formed. -/
def print (a : Arg) : Option String :=
  (printSelect a.type).map (fun o => o.line)

/-- The four `myPrint` overloads, in source order. -/
inductive MyPrintOverload
  | int | double | constCharPtr | string
  deriving DecidableEq, Repr

/-- The return type of each `myPrint` overload after substitution of `T`:
`std::enable_if_t<std::is_same_v<T, X>, void>` for `X` one of `int`, `double`,
`const char *`, `std::string`. -/
def MyPrintOverload.returnType (T : CppType) : MyPrintOverload → Option CppType
  | int => enable_if_t (is_same_v T CppType.int) CppType.void
  | double => enable_if_t (is_same_v T CppType.double) CppType.void
  | constCharPtr => enable_if_t (is_same_v T CppType.constCharPtr) CppType.void
  | string => enable_if_t (is_same_v T CppType.stdString) CppType.void

/-- The type label each `myPrint` body writes before the value. -/
def MyPrintOverload.label : MyPrintOverload → String
  | int => "T is intergal! "
  | double => "T is floating point! "
  | constCharPtr => "T is const char *! "
  | string => "T is const char *! "

/-- Overload selected by the call `myPrint(t)`. -/
def myPrintSelect (T : CppType) : Option MyPrintOverload :=
  resolve [MyPrintOverload.int, MyPrintOverload.double, MyPrintOverload.constCharPtr,
    MyPrintOverload.string] (fun o => (o.returnType T).isSome)

/-- Text written by `myPrint(t)`: the label and then the value. -/
def myPrint (a : Arg) : Option String :=
  (myPrintSelect a.type).map (fun o => o.label ++ a.shown)

/-- Concept: `concept Intergal = std::is_integral_v<T>`. -/
def Intergal (T : CppType) : Bool := is_integral_v T

/-- Concept: `concept FloatingPoint = std::is_floating_point_v<T>`. -/
def FloatingPoint (T : CppType) : Bool := is_floating_point_v T

/-- Concept: `concept Cstring = std::is_same_v<T, const char *> || std::is_same_v<T, char *>`. -/
def Cstring (T : CppType) : Bool :=
  is_same_v T CppType.constCharPtr || is_same_v T CppType.charPtr

/-- Concept: `concept String = std::is_same_v<T, std::string>`. -/
def String (T : CppType) : Bool := is_same_v T CppType.stdString

/-- The five `conceptPrint` overloads, in source order. -/
inductive ConceptPrintOverload
  | intergal | floatingPoint | cstring | string | unknown
  deriving DecidableEq, Repr

/-- The constraint of each `conceptPrint` overload. -/
def ConceptPrintOverload.constraint (T : CppType) : ConceptPrintOverload → Bool
  | intergal => Intergal T
  | floatingPoint => FloatingPoint T
  | cstring => Cstring T
  | string => String T
  | unknown => !Intergal T && !FloatingPoint T && !Cstring T && !String T

/-- The five overloads as a list. -/
def conceptPrintOverloads : List ConceptPrintOverload :=
  [ConceptPrintOverload.intergal, ConceptPrintOverload.floatingPoint,
    ConceptPrintOverload.cstring, ConceptPrintOverload.string, ConceptPrintOverload.unknown]

/-- Text each `conceptPrint` body writes. -/
def ConceptPrintOverload.emit (a : Arg) : ConceptPrintOverload → Text
  | intergal => "T is intergal! " ++ a.shown
  | floatingPoint => "T is floating point! " ++ a.shown
  | cstring => "T is (const char *) or (char *)! " ++ a.shown
  | string => "T is std::string! " ++ a.shown
  | unknown => "T is unknown type! \n" ++ joinItems a.items

/-- Overload selected by the call `conceptPrint(t)`: the overloads whose
constraint `T` satisfies; none of the constraints subsumes another, so the call
is well-formed exactly when one is left. -/
def conceptPrintSelect (T : CppType) : Option ConceptPrintOverload :=
  resolve conceptPrintOverloads (fun o => o.constraint T)

/-- Text written by `conceptPrint(t)`. -/
def conceptPrint (a : Arg) : Option Text :=
  (conceptPrintSelect a.type).map (fun o => o.emit a)

/-- The integer literal `666` of `main`. -/
def arg666 : Arg := { type := CppType.int, shown := "666" }

/-- The argument `std::string("Hello template!")` of `main`. -/
def argString : Arg := { type := CppType.stdString, shown := "Hello template!" }

/-- The argument `"Hello template!"` of `main`, decayed to `const char *`. -/
def argLiteral : Arg := { type := CppType.constCharPtr, shown := "Hello template!" }

end SFINAE

/-! ## src/SFINAE/test2.cpp -/

namespace Test2

/-- A type as `has_non_void_value_type` sees it: what `typename T::value_type`
names, `none` when `T` has no such member type. -/
structure TypeDecl where
  name : String
  value_type : Option CppType

/-- The partial specialization in use,
`has_non_void_value_type<T, std::void_t<typename T::value_type>> : std::true_type`:
its second template argument after substitution of `T`. -/
def specializationArg (T : TypeDecl) : Option CppType :=
  void_t T.value_type

/-- Value of `has_non_void_value_type<T, U>::value`: `true` when the partial
specialization matches the arguments, `false` from the primary template
otherwise. -/
def has_non_void_value_type_at (T : TypeDecl) (U : CppType) : Bool :=
  match specializationArg T with
  | some S => decide (S = U)
  | none => false

/-- Value of `has_non_void_value_type<T>::value`, with the default argument `U = void`. -/
def has_non_void_value_type (T : TypeDecl) : Bool :=
  has_non_void_value_type_at T CppType.void

/-- The commented-out partial specialization,
`has_non_void_value_type<T, std::enable_if_t<!std::is_void_v<typename T::value_type>>>`:
its second template argument after substitution of `T`. -/
def enableIfSpecializationArg (T : TypeDecl) : Option CppType :=
  T.value_type.bind (fun V => enable_if_t (!is_void_v V) CppType.void)

/-- Value of `has_non_void_value_type<T>::value` under the commented-out specialization. -/
def has_non_void_value_type_enable_if (T : TypeDecl) : Bool :=
  match enableIfSpecializationArg T with
  | some S => decide (S = CppType.void)
  | none => false

/-- The property in the words of the specification: `T` has a member type
`value_type` and that type is not void. -/
def hasNonVoidValueTypeSpec (T : TypeDecl) : Bool :=
  match T.value_type with
  | some V => !is_void_v V
  | none => false

/-- Member `TypePrinter<T>::print()`: the line written, chosen by the default argument
`HasValueType = has_non_void_value_type<T>::value`. -/
def TypePrinter.print (T : TypeDecl) : String :=
  if has_non_void_value_type T then "T has a value_type member."
  else "T does not have a value_type member."

/-- Class `struct WithValueType { using value_type = int; };`. -/
def WithValueType : TypeDecl := { name := "WithValueType", value_type := some CppType.int }

/-- Class `struct WithoutValueType {};`. -/
def WithoutValueType : TypeDecl := { name := "WithoutValueType", value_type := none }

end Test2

/-! ## src/forward/test.cpp -/

namespace Forward

/-- Value category of an expression. -/
inductive ValueCategory
  | lvalue | xvalue | prvalue
  deriving DecidableEq, Repr

/-- An expression: its (non-reference) type and its value category. -/
structure Expr where
  type : CppType
  cat : ValueCategory
  deriving DecidableEq, Repr

/-- Reference collapsing for `T&&`: `U& &&` is `U&`, `U&& &&` is `U&&`. -/
def addRvalueReference : CppType → CppType
  | CppType.lref t => CppType.lref t
  | CppType.rref t => CppType.rref t
  | t => CppType.rref t

/-- Trait `std::remove_reference_t<T>`. -/
def remove_reference : CppType → CppType
  | CppType.lref t => t
  | CppType.rref t => t
  | t => t

/-- Deduction of `T` for a forwarding reference parameter `T&& t`: `U&` for an
lvalue argument of type `U`, `U` for an rvalue argument. -/
def deduceForwarding (arg : Expr) : CppType :=
  match arg.cat with
  | ValueCategory.lvalue => CppType.lref arg.type
  | _ => arg.type

/-- The expression that a cast to (or a call returning) type `R` is: an lvalue
for an lvalue reference, an xvalue for an rvalue reference, a prvalue otherwise. -/
def exprOfResult : CppType → Expr
  | CppType.lref t => { type := t, cat := ValueCategory.lvalue }
  | CppType.rref t => { type := t, cat := ValueCategory.xvalue }
  | t => { type := t, cat := ValueCategory.prvalue }

/-- Function `std::forward<T>(t)`, that is `static_cast<T&&>(t)` for `t` of type
`std::remove_reference_t<T>`; `none` when the argument has another type. -/
def forward (T : CppType) (t : Expr) : Option Expr :=
  if t.type = remove_reference T then some (exprOfResult (addRvalueReference T)) else none

/-- The two `process` overloads, in source order. -/
inductive ProcessOverload
  | lref | rref
  deriving DecidableEq, Repr

/-- Parameter type of each overload: `int&` and `int&&`. -/
def ProcessOverload.param : ProcessOverload → CppType
  | lref => CppType.lref CppType.int
  | rref => CppType.rref CppType.int

/-- Line each overload writes. -/
def ProcessOverload.line : ProcessOverload → String
  | lref => "int& "
  | rref => "int&& "

/-- Direct reference binding of a parameter to an argument of the referenced
type: a non-const lvalue reference binds lvalues only, an rvalue reference binds
rvalues (xvalues and prvalues) only. Bindings through a conversion are outside
the arguments of this program and are not modelled. -/
def binds (param : CppType) (arg : Expr) : Bool :=
  match param with
  | CppType.lref P => decide (arg.cat = ValueCategory.lvalue) && decide (arg.type = P)
  | CppType.rref P => decide (arg.cat ≠ ValueCategory.lvalue) && decide (arg.type = P)
  | _ => false

/-- Overload selected by the call `process(arg)`. -/
def processSelect (arg : Expr) : Option ProcessOverload :=
  resolve [ProcessOverload.lref, ProcessOverload.rref] (fun o => binds o.param arg)

/-- Text written by `process(arg)`. -/
def process (arg : Expr) : Option String :=
  (processSelect arg).map (fun o => o.line)

/-- Function template `wrapper(arg)`: `T` is deduced from `T&& t`, the named parameter `t` is an
lvalue of type `std::remove_reference_t<T&&>`, and the body is
`process(std::forward<T>(t))`. -/
def wrapper (arg : Expr) : Option String :=
  let T := deduceForwarding arg
  let t : Expr := { type := remove_reference (addRvalueReference T), cat := ValueCategory.lvalue }
  (forward T t).bind process

/-- The variant in the comment of `wrapper`, `process(t)`, without `std::forward`. -/
def wrapperNoForward (arg : Expr) : Option String :=
  let T := deduceForwarding arg
  let t : Expr := { type := remove_reference (addRvalueReference T), cat := ValueCategory.lvalue }
  process t

/-- The lvalue `x` of `main` (`int x = 10;`). -/
def x : Expr := { type := CppType.int, cat := ValueCategory.lvalue }

/-- The literal `10` of `main`. -/
def ten : Expr := { type := CppType.int, cat := ValueCategory.prvalue }

end Forward

/-! ## src/Specialization/Specialization.cpp -/

namespace Specialization

/-- Template-argument patterns of the partial specializations: a template
parameter or a pointer to a pattern. -/
inductive Pat
  | var (n : Nat)
  | ptr (p : Pat)
  deriving DecidableEq, Repr

/-- Deduced template arguments. -/
abbrev Subst := List (Nat × CppType)

/-- Record `n := t`; fails when `n` was already deduced as another type. -/
def bindVar (n : Nat) (t : CppType) (σ : Subst) : Option Subst :=
  match σ.lookup n with
  | none => some ((n, t) :: σ)
  | some u => if u = t then some σ else none

/-- Deduce the parameters of a pattern from a type. -/
def Pat.deduce : Pat → CppType → Subst → Option Subst
  | Pat.var n, t, σ => bindVar n t σ
  | Pat.ptr p, CppType.ptr t, σ => p.deduce t σ
  | Pat.ptr _, _, _ => none

/-- Deduce the parameters of an argument-pattern list from a list of types. -/
def deduceAll : List Pat → List CppType → Subst → Option Subst
  | [], [], σ => some σ
  | p :: ps, t :: ts, σ => (p.deduce t σ).bind (deduceAll ps ts)
  | _, _, _ => none

/-- The partial specializations of `Mypair`, in source order. -/
inductive Spec
  | sameTypes | pointer
  deriving DecidableEq, Repr

/-- Argument patterns: `Mypair<T, T>` and `Mypair<T, U*>`. -/
def Spec.pattern : Spec → List Pat
  | sameTypes => [Pat.var 0, Pat.var 0]
  | pointer => [Pat.var 0, Pat.ptr (Pat.var 1)]

/-- What `name()` returns in each partial specialization. -/
def Spec.name : Spec → String
  | sameTypes => "Same Types"
  | pointer => "Pointer"

/-- A partial specialization matches the arguments when its parameters can be
deduced from them. -/
def Spec.isMatch (s : Spec) (T U : CppType) : Bool :=
  (deduceAll s.pattern [T, U] []).isSome

/-- A pattern with each parameter replaced by a unique type, for partial
ordering. -/
def Pat.unique : Pat → CppType
  | Pat.var n => CppType.cls ("unique-" ++ toString n)
  | Pat.ptr p => CppType.ptr p.unique

/-- Partial ordering: `a` is at least as specialized as `b` when the parameters
of `b` can be deduced from the arguments of `a` taken with unique types. -/
def Spec.atLeastAsSpecialized (a b : Spec) : Bool :=
  (deduceAll b.pattern (a.pattern.map Pat.unique) []).isSome

/-- Specialization `a` is more specialized than `b`. -/
def Spec.moreSpecialized (a b : Spec) : Bool :=
  a.atLeastAsSpecialized b && !b.atLeastAsSpecialized a

/-- The result of choosing the definition of `Mypair<T, U>`. -/
inductive Choice
  | primary
  | spec (s : Spec)
  | ambiguous
  deriving DecidableEq, Repr

/-- Selection of the definition of `Mypair<T, U>`: the primary template when no
partial specialization matches, the matching one when there is one, and among
several the one more specialized than all the others; the instantiation is
ambiguous when there is none such. -/
def select (T U : CppType) : Choice :=
  let matching := [Spec.sameTypes, Spec.pointer].filter (fun s => s.isMatch T U)
  match matching with
  | [] => Choice.primary
  | [s] => Choice.spec s
  | _ =>
    match matching.filter (fun s => matching.all (fun r => r = s || s.moreSpecialized r)) with
    | [s] => Choice.spec s
    | _ => Choice.ambiguous

/-- Member `Mypair<T, U>::name()`; `none` when the instantiation is ill-formed. -/
def Mypair.name (T U : CppType) : Option String :=
  match select T U with
  | Choice.primary => some "Generic"
  | Choice.spec s => some s.name
  | Choice.ambiguous => none

end Specialization

/-! ## Theorems: folds -/

namespace TemplateTest

theorem foldl_add_assoc {α : Type} [AddSemigroup α] (a b : α) (rest : List α) :
    rest.foldl (· + ·) (a + b) = a + rest.foldl (· + ·) b := by
  induction rest generalizing b with
  | nil => rfl
  | cons c rest ih =>
    simp only [List.foldl_cons]
    rw [add_assoc, ih]

/-- Where `+` is total and associative (as concatenation of `std::string` is, which
`main` also uses), the recursion of `add` is the left fold. The built-in `+` of a
signed integer type is neither, see `add_signed` and `foldl_signed`. -/
theorem add_eq_foldl {α : Type} [AddSemigroup α] (a : α) (rest : List α) :
    add a rest = rest.foldl (· + ·) a := by
  induction rest generalizing a with
  | nil => rfl
  | cons b rest ih =>
    simp only [add, List.foldl_cons]
    rw [ih, foldl_add_assoc]

/-- Where `+` is the operation of a monoid, `add` is the sum of the pack. -/
theorem add_eq_sum {α : Type} [AddMonoid α] (a : α) (rest : List α) :
    add a rest = (a :: rest).sum := by
  induction rest generalizing a with
  | nil => simp [add]
  | cons b rest ih =>
    simp only [add]
    rw [ih]
    simp only [List.sum_cons]

theorem value_of_add (t : IntType) (a b : Int) :
    Value.of t a + Value.of t b = { val := t.plus a b } := rfl

theorem plus_signed (t : IntType) (hs : t.signed = true) (a b : Int)
    (h : t.inRange (a + b) = true) : t.plus a b = some (a + b) := by
  simp [IntType.plus, hs, h]

theorem plus_unsigned (t : IntType) (hs : t.signed = false) (a b : Int) :
    t.plus a b = some ((a + b) % 2 ^ t.bits) := by
  simp [IntType.plus, hs]

theorem emod_of_inRange_unsigned (t : IntType) (hs : t.signed = false) (a : Int)
    (h : t.inRange a = true) : a % 2 ^ t.bits = a := by
  simp only [IntType.inRange, IntType.minVal, IntType.maxVal, hs, decide_eq_true_eq] at h
  exact Int.emod_eq_of_lt (by simpa using h.1) (by have := h.2; simp at this; omega)

/-- Signed `add`: defined, with the sum as value, when no sum of a tail of the
pack overflows. -/
theorem add_signed (t : IntType) (hs : t.signed = true) (a : Int) (rest : List Int)
    (hsuf : ∀ k, t.inRange ((a :: rest).drop k).sum = true) :
    add (Value.of t a) (rest.map (Value.of t)) = Value.of t (a :: rest).sum := by
  induction rest generalizing a with
  | nil => simp [add]
  | cons b tl ih =>
    have h0 := hsuf 0
    simp only [List.drop_zero, List.sum_cons] at h0
    simp only [List.map_cons, add]
    rw [ih b (fun k => hsuf (k + 1)), value_of_add, plus_signed t hs _ _ (by simpa using h0)]
    simp [Value.of]

/-- Signed left fold: defined, with the sum as value, when no sum of a head of
the pack overflows. -/
theorem foldl_signed (t : IntType) (hs : t.signed = true) (acc : Int) (rest : List Int)
    (hpre : ∀ k, t.inRange (acc + (rest.take k).sum) = true) :
    (rest.map (Value.of t)).foldl (· + ·) (Value.of t acc) = Value.of t (acc + rest.sum) := by
  induction rest generalizing acc with
  | nil => simp
  | cons b tl ih =>
    have h1 := hpre 1
    simp only [List.take_succ_cons, List.take_zero, List.sum_cons, List.sum_nil, add_zero] at h1
    simp only [List.map_cons, List.foldl_cons]
    rw [value_of_add, plus_signed t hs _ _ h1]
    have := ih (acc + b) (fun k => by
      have hk := hpre (k + 1)
      simpa [List.take_succ_cons, add_assoc] using hk)
    simpa [Value.of, add_assoc] using this

/-- Unsigned `add`: the sum modulo `2 ^ bits`. -/
theorem add_unsigned (t : IntType) (hs : t.signed = false) (a : Int) (rest : List Int)
    (hin : ∀ v ∈ a :: rest, t.inRange v = true) :
    add (Value.of t a) (rest.map (Value.of t)) = Value.of t ((a :: rest).sum % 2 ^ t.bits) := by
  induction rest generalizing a with
  | nil =>
    simp [add, emod_of_inRange_unsigned t hs a (hin a (by simp))]
  | cons b tl ih =>
    simp only [List.map_cons, add]
    rw [ih b (fun v hv => hin v (List.mem_cons_of_mem _ hv)), value_of_add, plus_unsigned t hs]
    simp [Value.of]

/-- Unsigned left fold: the sum modulo `2 ^ bits`. -/
theorem foldl_unsigned (t : IntType) (hs : t.signed = false) (x : Int) (rest : List Int) :
    (rest.map (Value.of t)).foldl (· + ·) (Value.of t (x % 2 ^ t.bits)) =
      Value.of t ((x + rest.sum) % 2 ^ t.bits) := by
  induction rest generalizing x with
  | nil => simp
  | cons b tl ih =>
    simp only [List.map_cons, List.foldl_cons]
    rw [value_of_add, plus_unsigned t hs]
    have := ih (x + b)
    simpa [Value.of, add_assoc] using this

/-- C1 (evaluation at the arguments of `main`): `sub(10, 2, 2)` is
`10 - (2 - 2) = 10` while `sub_fold(10, 2, 2)` is `(10 - 2) - 2 = 6`, so the two
do not return the same value. -/
theorem sub_fold_differs_from_sub :
    sub (10 : Int) [2, 2] = 10 ∧ sub_fold [(10 : Int), 2, 2] = some 6 ∧
    sub_fold [(10 : Int), 2, 2] ≠ some (sub (10 : Int) [2, 2]) := by
  decide

end TemplateTest

namespace TestSub

/-- C7: in test_sub.cpp, for all rational `a b c d`,
`rightFold(a, b, c, d) = a - (b - (c - d))`, and
`rightFold(1, 10, 3.14, 666) = -671.86` computed exactly. -/
theorem rightFold_four (a b c d : ℚ) :
    rightFold [a, b, c, d] = some (a - (b - (c - d))) ∧
    rightFold [(1 : ℚ), 10, 314 / 100, 666] = some (-(67186 / 100)) := by
  constructor
  · rfl
  · simp only [rightFold, unaryRightFold, Option.map_some']
    norm_num

end TestSub

namespace FoldExamples

/-- C8 (evaluation): in fold_examples.cpp `rightFold(1, 2, 3, 4)` is
`((1 - 2) - 3) - 4 = -8`, not `1 - (2 - (3 - 4)) = -2` as its comment documents;
in general it is `((a - b) - c) - d`. -/
theorem rightFold_is_left_fold :
    rightFold [(1 : Int), 2, 3, 4] = some (-8) ∧
    rightFold [(1 : Int), 2, 3, 4] ≠ some ((1 : Int) - (2 - (3 - 4))) ∧
    (∀ a b c d : Int, rightFold [a, b, c, d] = some (((a - b) - c) - d)) := by
  refine ⟨by decide, by decide, ?_⟩
  intro a b c d
  rfl

end FoldExamples

/-! ## Theorems: src/SFINAE/SFINAE.cpp -/

namespace SFINAE

theorem integral_not_floating (T : CppType) (h : is_integral_v T = true) :
    is_floating_point_v T = false := by
  unfold is_integral_v at h
  unfold is_floating_point_v
  split at h
  · rename_i f hf
    cases f <;> simp_all [Fundamental.isIntegral, Fundamental.isFloatingPoint]
  · simp at h

theorem cstring_not_arithmetic (T : CppType) (h : Cstring T = true) :
    is_integral_v T = false ∧ is_floating_point_v T = false ∧ String T = false := by
  simp only [Cstring, is_same_v, Bool.or_eq_true, decide_eq_true_eq] at h
  rcases h with h | h <;> subst h <;> decide

theorem string_not_arithmetic (T : CppType) (h : String T = true) :
    is_integral_v T = false ∧ is_floating_point_v T = false := by
  simp only [String, is_same_v, decide_eq_true_eq] at h
  subst h
  decide

/-- Every type satisfies the constraints in one of five exclusive patterns. -/
theorem constraint_patterns (T : CppType) :
    (Intergal T = true ∧ FloatingPoint T = false ∧ Cstring T = false ∧ String T = false) ∨
    (Intergal T = false ∧ FloatingPoint T = true ∧ Cstring T = false ∧ String T = false) ∨
    (Intergal T = false ∧ FloatingPoint T = false ∧ Cstring T = true ∧ String T = false) ∨
    (Intergal T = false ∧ FloatingPoint T = false ∧ Cstring T = false ∧ String T = true) ∨
    (Intergal T = false ∧ FloatingPoint T = false ∧ Cstring T = false ∧ String T = false) := by
  have h1 := integral_not_floating T
  have h2 := cstring_not_arithmetic T
  have h3 := string_not_arithmetic T
  unfold Intergal FloatingPoint
  cases hi : is_integral_v T <;> cases hf : is_floating_point_v T <;>
    cases hc : Cstring T <;> cases hs : String T <;> simp_all

/-- For an integral `T` both dispatch functions select the integral branch. -/
theorem integral_branch_selected (T : CppType) (h : is_integral_v T = true) :
    printSelect T = some PrintOverload.integral ∧
    conceptPrintSelect T = some ConceptPrintOverload.intergal := by
  have hf := integral_not_floating T h
  have hp := constraint_patterns T
  have hi : Intergal T = true := h
  constructor
  · simp [printSelect, resolve, PrintOverload.returnType, enable_if_t, h, hf, List.filter]
  · rcases hp with hp | hp | hp | hp | hp <;>
      simp_all [conceptPrintSelect, resolve, conceptPrintOverloads,
        ConceptPrintOverload.constraint, List.filter]

/-- C3 (evaluation at the literal `666` of `main`): `print` and `conceptPrint`
select the integral branch, and the line that branch writes is
`T is intergal!` (from `conceptPrint`, `T is intergal! 666`), which does not start
with the text `T is integral!`. -/
theorem integral_line_misspelt :
    printSelect arg666.type = some PrintOverload.integral ∧
    conceptPrintSelect arg666.type = some ConceptPrintOverload.intergal ∧
    print arg666 = some "T is intergal!" ∧
    conceptPrint arg666 = some "T is intergal! 666" ∧
    ¬ ("T is integral!".data <+: "T is intergal!".data) ∧
    ¬ ("T is integral!".data <+: "T is intergal! 666".data) := by
  decide

/-- C4 (evaluation at the `std::string` argument of `main`): `myPrint` selects
the `std::string` overload, whose label is `T is const char *! `, the same label
as the `const char *` overload writes. -/
theorem myPrint_string_label_is_cstring_label :
    myPrintSelect argString.type = some MyPrintOverload.string ∧
    myPrint argString = some "T is const char *! Hello template!" ∧
    myPrint argLiteral = some "T is const char *! Hello template!" ∧
    MyPrintOverload.label MyPrintOverload.string =
      MyPrintOverload.label MyPrintOverload.constCharPtr := by
  decide

/-- C5: for every type `T` exactly one of the five `conceptPrint` constraints is
satisfied, so exactly one overload is viable and the call selects it. -/
theorem conceptPrint_unambiguous (T : CppType) :
    (∃! o : ConceptPrintOverload, o.constraint T = true) ∧
    (conceptPrintOverloads.filter (fun o => o.constraint T)).length = 1 ∧
    (∃ o, conceptPrintSelect T = some o ∧ o.constraint T = true) := by
  have hp := constraint_patterns T
  refine ⟨?_, ?_, ?_⟩
  · rcases hp with hp | hp | hp | hp | hp
    · refine ⟨ConceptPrintOverload.intergal, by simp [ConceptPrintOverload.constraint, hp], ?_⟩
      intro o ho
      cases o <;> simp_all [ConceptPrintOverload.constraint]
    · refine ⟨ConceptPrintOverload.floatingPoint,
        by simp [ConceptPrintOverload.constraint, hp], ?_⟩
      intro o ho
      cases o <;> simp_all [ConceptPrintOverload.constraint]
    · refine ⟨ConceptPrintOverload.cstring, by simp [ConceptPrintOverload.constraint, hp], ?_⟩
      intro o ho
      cases o <;> simp_all [ConceptPrintOverload.constraint]
    · refine ⟨ConceptPrintOverload.string, by simp [ConceptPrintOverload.constraint, hp], ?_⟩
      intro o ho
      cases o <;> simp_all [ConceptPrintOverload.constraint]
    · refine ⟨ConceptPrintOverload.unknown, by simp [ConceptPrintOverload.constraint, hp], ?_⟩
      intro o ho
      cases o <;> simp_all [ConceptPrintOverload.constraint]
  · rcases hp with hp | hp | hp | hp | hp <;>
      simp [conceptPrintOverloads, ConceptPrintOverload.constraint, List.filter, hp]
  · rcases hp with hp | hp | hp | hp | hp <;>
      simp [conceptPrintSelect, resolve, conceptPrintOverloads,
        ConceptPrintOverload.constraint, List.filter, hp]

end SFINAE

/-! ## Theorems: src/SFINAE/test2.cpp -/

namespace Test2

/-- The specialization in use answers whether the member type exists. -/
theorem has_non_void_value_type_eq_isSome (T : TypeDecl) :
    has_non_void_value_type T = T.value_type.isSome := by
  cases h : T.value_type <;>
    simp [has_non_void_value_type, has_non_void_value_type_at, specializationArg, void_t, h]

/-- The commented-out specialization answers whether the member type exists and
is not void. -/
theorem enable_if_version_eq_spec (T : TypeDecl) :
    has_non_void_value_type_enable_if T = hasNonVoidValueTypeSpec T := by
  cases h : T.value_type with
  | none => simp [has_non_void_value_type_enable_if, enableIfSpecializationArg,
      hasNonVoidValueTypeSpec, h]
  | some V =>
    cases hv : is_void_v V <;>
      simp [has_non_void_value_type_enable_if, enableIfSpecializationArg,
        hasNonVoidValueTypeSpec, enable_if_t, h, hv]

/-- C9 (evaluation): for `WithValueType` the trait is `true` and for
`WithoutValueType` it is `false`, but for a class `S` with
`using value_type = void;` the specialization in use gives `true`, where the
commented-out `enable_if_t` specialization and the stated property give `false`. -/
theorem void_value_type_accepted :
    has_non_void_value_type WithValueType = true ∧
    has_non_void_value_type WithoutValueType = false ∧
    has_non_void_value_type { name := "S", value_type := some CppType.void } = true ∧
    has_non_void_value_type_enable_if { name := "S", value_type := some CppType.void } = false ∧
    hasNonVoidValueTypeSpec { name := "S", value_type := some CppType.void } = false ∧
    TypePrinter.print { name := "S", value_type := some CppType.void } =
      "T has a value_type member." := by
  decide

end Test2

/-! ## Theorems: src/forward/test.cpp -/

namespace Forward

/-- C6: `wrapper` preserves the value category of an `int` argument. For the
lvalue `x`, `T` is deduced as `int&`, `std::forward<T>(t)` is an lvalue and
`process(int&)` writes `int& `; for the rvalue `10`, `T` is deduced as `int`,
`std::forward<T>(t)` is an xvalue and `process(int&&)` writes `int&& `. For every
value category of the argument it is the overload that the direct call
`process(arg)` selects. -/
theorem wrapper_preserves_value_category :
    deduceForwarding x = CppType.lref CppType.int ∧
    deduceForwarding ten = CppType.int ∧
    addRvalueReference (CppType.lref CppType.int) = CppType.lref CppType.int ∧
    addRvalueReference CppType.int = CppType.rref CppType.int ∧
    processSelect x = some ProcessOverload.lref ∧
    processSelect ten = some ProcessOverload.rref ∧
    wrapper x = some "int& " ∧
    wrapper ten = some "int&& " ∧
    (∀ cat : ValueCategory,
      wrapper { type := CppType.int, cat := cat } = process { type := CppType.int, cat := cat }) := by
  refine ⟨by decide, by decide, by decide, by decide, by decide, by decide, by decide,
    by decide, ?_⟩
  intro cat
  cases cat <;> decide

end Forward

/-! ## Theorems: src/Specialization/Specialization.cpp -/

namespace Specialization

theorem isMatch_sameTypes (T U : CppType) :
    Spec.sameTypes.isMatch T U = decide (T = U) := by
  by_cases h : T = U <;>
    simp [Spec.isMatch, Spec.pattern, deduceAll, Pat.deduce, bindVar, List.lookup, h]

theorem isMatch_pointer (T U : CppType) :
    Spec.pointer.isMatch T U = U.isPointer := by
  cases U <;>
    simp [Spec.isMatch, Spec.pattern, deduceAll, Pat.deduce, bindVar, List.lookup,
      CppType.isPointer]

/-- C10 (counterexample): for `T = U = int*` both partial specializations match,
neither is more specialized than the other, and `Mypair<int*, int*>` is
ambiguous. -/
theorem mypair_pointer_pair_ambiguous :
    Spec.sameTypes.isMatch (CppType.ptr CppType.int) (CppType.ptr CppType.int) = true ∧
    Spec.pointer.isMatch (CppType.ptr CppType.int) (CppType.ptr CppType.int) = true ∧
    Spec.moreSpecialized Spec.sameTypes Spec.pointer = false ∧
    Spec.moreSpecialized Spec.pointer Spec.sameTypes = false ∧
    select (CppType.ptr CppType.int) (CppType.ptr CppType.int) = Choice.ambiguous ∧
    Mypair.name (CppType.ptr CppType.int) (CppType.ptr CppType.int) = none := by
  decide

/-- C10 (amended): `Mypair<T, T>` matches exactly when `T = U` and `Mypair<T, U*>`
exactly when `U` is a pointer type `V*`; both match exactly when `T = U = V*`, and
then the instantiation is ambiguous. Otherwise `name()` is `Same Types` when
`T = U`, `Pointer` when `U` is a pointer type `V*`, and `Generic` otherwise. -/
theorem mypair_name_selection (T U : CppType) :
    (Spec.sameTypes.isMatch T U = true ↔ T = U) ∧
    (Spec.pointer.isMatch T U = true ↔ ∃ V, U = CppType.ptr V) ∧
    Mypair.name T U =
      (if T = U ∧ U.isPointer = true then none
       else if T = U then some "Same Types"
       else if U.isPointer = true then some "Pointer"
       else some "Generic") := by
  have hs := isMatch_sameTypes T U
  have hp := isMatch_pointer T U
  refine ⟨by simp [hs], ?_, ?_⟩
  · rw [hp]
    cases U <;> simp [CppType.isPointer]
  · have h1 : Spec.moreSpecialized Spec.sameTypes Spec.pointer = false := by decide
    have h2 : Spec.moreSpecialized Spec.pointer Spec.sameTypes = false := by decide
    by_cases hTU : T = U <;> cases hU : U.isPointer <;>
      simp [Mypair.name, select, List.filter, List.all, hs, hp, hTU, hU, h1, h2, Spec.name] <;>
      simp_all [Spec.name]

end Specialization
